import Mathlib

/-!
# Stellar Homestead — verification of the simulation core

Shallow embedding of `homestead.cpp`: the resource ledger, buildings,
colonists, events, the phase state machine and the game-loop step,
followed by theorems settling the specification claims.

Machine integers are modelled as `Int` (the C++ `int` values involved stay
far from overflow).  The `std::map<std::string,int>` inside `Resource`
always holds exactly the four keys `energy < food < materials < oxygen`
(lexicographic iteration order) in every state the program constructs, so
it is embedded as a four-field structure; the map iteration order is kept
wherever it is observable (the order in which `operator-` checks kinds).
-/

/-- The four resource kinds, i.e. the keys of the `resources` map. -/
inductive ResKind
  | food
  | energy
  | materials
  | oxygen
deriving DecidableEq, Repr

/-- The `Resource` class: a quantity per kind. -/
structure Resource where
  food : Int
  energy : Int
  materials : Int
  oxygen : Int
deriving DecidableEq, Repr

/-- The `Resource()` default constructor: it preloads
`food = 100, energy = 100, materials = 50, oxygen = 100`. -/
def defaultResource : Resource :=
  { food := 100, energy := 100, materials := 50, oxygen := 100 }

/-- The all-zero resource delta (what the specification calls the zero delta;
no C++ constructor produces it). -/
def zeroResource : Resource :=
  { food := 0, energy := 0, materials := 0, oxygen := 0 }

/-- Projection by kind (`resources[k]` for an existing key `k`). -/
def resGet (a : Resource) : ResKind → Int
  | .food => a.food
  | .energy => a.energy
  | .materials => a.materials
  | .oxygen => a.oxygen

/-- `Resource::operator+`: key-wise addition over the other map's keys.
It never throws. -/
def resAdd (a b : Resource) : Resource :=
  { food := a.food + b.food
    energy := a.energy + b.energy
    materials := a.materials + b.materials
    oxygen := a.oxygen + b.oxygen }

/-- `Resource::operator-`: subtracts the other map's entries from a copy,
iterating keys in `std::map` order (`energy`, `food`, `materials`,
`oxygen`), and throws `ResourceException("Insufficient <kind>")` at the
first key whose result is negative. -/
def resSub (a b : Resource) : Except ResKind Resource :=
  if a.energy - b.energy < 0 then .error .energy
  else if a.food - b.food < 0 then .error .food
  else if a.materials - b.materials < 0 then .error .materials
  else if a.oxygen - b.oxygen < 0 then .error .oxygen
  else .ok
    { food := a.food - b.food
      energy := a.energy - b.energy
      materials := a.materials - b.materials
      oxygen := a.oxygen - b.oxygen }

/-- `Resource::operator-=` (`*this = *this - other`): on a throw from
`operator-`, `*this` keeps its old value; the second component reports the
thrown kind, if any. -/
def resSubAssign (a b : Resource) : Resource × Option ResKind :=
  match resSub a b with
  | .ok c => (c, none)
  | .error k => (a, some k)

/-- `Resource::canAfford`: for every key of `cost`, looks the key up in
this ledger and returns false when the held quantity is below the cost
(the key-absent branch cannot fire in a four-kind state). -/
def canAfford (a cost : Resource) : Bool :=
  !(a.energy < cost.energy) && !(a.food < cost.food) &&
    !(a.materials < cost.materials) && !(a.oxygen < cost.oxygen)

/-- Claim C4: `subtract` is atomic: if some kind's tentative result would
be negative the whole operation fails naming such a kind and `operator-=`
leaves the ledger unchanged; otherwise every kind is debited key-wise. -/
theorem subtract_atomic (a b : Resource) :
    match resSub a b with
    | .error k =>
        resGet a k - resGet b k < 0 ∧ resSubAssign a b = (a, some k)
    | .ok c =>
        c = { food := a.food - b.food, energy := a.energy - b.energy,
              materials := a.materials - b.materials,
              oxygen := a.oxygen - b.oxygen }
          ∧ (∀ k, 0 ≤ resGet a k - resGet b k)
          ∧ resSubAssign a b = (c, none) := by
  rcases hs : resSub a b with k | c
  · have hassign : resSubAssign a b = (a, some k) := by
      simp [resSubAssign, hs]
    refine ⟨?_, hassign⟩
    unfold resSub at hs
    split_ifs at hs with h1 h2 h3 h4 <;>
      injection hs with hk <;> subst hk <;> simp [resGet] <;> omega
  · have hassign : resSubAssign a b = (c, none) := by
      simp [resSubAssign, hs]
    unfold resSub at hs
    split_ifs at hs with h1 h2 h3 h4
    all_goals injection hs with hc
    subst hc
    refine ⟨rfl, ?_, hassign⟩
    intro k; cases k <;> simp [resGet] <;> omega

/-- Claim C5: `canAfford(cost)` holds exactly when `subtract(cost)` from
the same ledger state succeeds. -/
theorem canAfford_iff_subtract (a cost : Resource) :
    canAfford a cost = true ↔ ∃ c, resSub a cost = Except.ok c := by
  unfold canAfford resSub
  split_ifs with h1 h2 h3 h4 <;>
    simp [Bool.and_eq_true, decide_eq_true_eq] <;> omega

/-- The four concrete building classes. -/
inductive BuildingKind
  | solarPanel
  | greenhouse
  | oxygenGenerator
  | materialFactory
deriving DecidableEq, Repr

/-- The `Building` state: the `cost` and `production` members are whole
`Resource` maps, default-constructed and then partially overwritten by the
derived-class constructors. -/
structure Building where
  kind : BuildingKind
  level : Int
  operational : Bool
  cost : Resource
  production : Resource
deriving DecidableEq, Repr

/-- `SolarPanel()` — cost materials 20, production energy 15, level 1,
operational (remaining entries keep the `Resource()` defaults). -/
def mkSolarPanel : Building :=
  { kind := .solarPanel, level := 1, operational := true
    cost := { defaultResource with materials := 20 }
    production := { defaultResource with energy := 15 } }

/-- `Greenhouse()` — cost materials 30 / energy 10, production food 20. -/
def mkGreenhouse : Building :=
  { kind := .greenhouse, level := 1, operational := true
    cost := { defaultResource with materials := 30, energy := 10 }
    production := { defaultResource with food := 20 } }

/-- `OxygenGenerator()` — cost materials 25 / energy 15, production oxygen 10. -/
def mkOxygenGenerator : Building :=
  { kind := .oxygenGenerator, level := 1, operational := true
    cost := { defaultResource with materials := 25, energy := 15 }
    production := { defaultResource with oxygen := 10 } }

/-- `MaterialFactory()` — cost materials 40 / energy 20, production materials 8. -/
def mkMaterialFactory : Building :=
  { kind := .materialFactory, level := 1, operational := true
    cost := { defaultResource with materials := 40, energy := 20 }
    production := { defaultResource with materials := 8 } }

/-- `produce()` of each derived class: on `!operational` it returns a
default-constructed `Resource()`; otherwise it default-constructs `output`
and overwrites only the building's own kind with `base × level`. -/
def Building.produce (b : Building) : Resource :=
  if b.operational = false then defaultResource
  else
    match b.kind with
    | .solarPanel => { defaultResource with energy := b.production.energy * b.level }
    | .greenhouse => { defaultResource with food := b.production.food * b.level }
    | .oxygenGenerator => { defaultResource with oxygen := b.production.oxygen * b.level }
    | .materialFactory => { defaultResource with materials := b.production.materials * b.level }

/-- The `Colonist` class.  Experience starts at 0 and is only ever
incremented, so it is a `Nat`. -/
structure Colonist where
  name : String
  specialization : String
  experience : Nat
  health : Int
  assigned : Bool
deriving DecidableEq, Repr

/-- The specialization dispatch inside `Colonist::work`, evaluated after
the `experience++`: `output` is default-constructed and only the listed
kinds are overwritten. -/
def workOutput (spec : String) (e : Nat) : Resource :=
  if spec = "Engineer" then
    { defaultResource with materials := ((5 + e / 10 : Nat) : Int) }
  else if spec = "Scientist" then
    { defaultResource with energy := ((3 + e / 15 : Nat) : Int),
                           oxygen := ((2 + e / 20 : Nat) : Int) }
  else if spec = "Farmer" then
    { defaultResource with food := ((8 + e / 8 : Nat) : Int) }
  else
    { defaultResource with materials := 2, food := 2 }

/-- `Colonist::work()`: throws `ColonistException` when `health < 50`,
otherwise increments experience and returns the specialization output. -/
def Colonist.work (c : Colonist) : Except String (Colonist × Resource) :=
  if c.health < 50 then .error (c.name ++ " is too sick to work")
  else
    .ok ({ c with experience := c.experience + 1 },
         workOutput c.specialization (c.experience + 1))

/-- `Colonist::rest()`: `health = min(100, health + 10); assigned = false`. -/
def Colonist.restOp (c : Colonist) : Colonist :=
  { c with health := min 100 (c.health + 10), assigned := false }

/-- The three event classes. -/
inductive EventKind
  | solarStorm
  | tradeShip
  | meteorShower
deriving DecidableEq, Repr

/-- The `Event` state: `resourceEffect` is a default-constructed
`Resource` member on which the derived constructors call
`setResourceEffect` for some kinds only. -/
structure EventT where
  kind : EventKind
  title : String
  probability : Int
  resourceEffect : Resource
deriving DecidableEq, Repr

/-- `SolarStorm()` — probability 15, sets only energy := −30. -/
def solarStormE : EventT :=
  { kind := .solarStorm, title := "Solar Storm", probability := 15
    resourceEffect := { defaultResource with energy := -30 } }

/-- `TradeShip()` — probability 25, sets materials := 20 and food := 15. -/
def tradeShipE : EventT :=
  { kind := .tradeShip, title := "Trade Ship Arrival", probability := 25
    resourceEffect := { defaultResource with materials := 20, food := 15 } }

/-- `MeteorShower()` — probability 10, sets materials := 30 and oxygen := −10. -/
def meteorShowerE : EventT :=
  { kind := .meteorShower, title := "Meteor Shower", probability := 10
    resourceEffect := { defaultResource with materials := 30, oxygen := -10 } }

/-- `setupEvents()`: the catalog in declaration order. -/
def eventCatalog : List EventT :=
  [solarStormE, tradeShipE, meteorShowerE]

/-- The scan in `handleEventPhase`: the first event with
`roll <= probability`, if any. -/
def selectEvent (roll : Int) : Option EventT :=
  eventCatalog.find? (fun ev => decide (roll ≤ ev.probability))

/-- `Event::execute` plus the `SolarStorm::execute` override: the base
effect is applied with `+=` (never throws, the `catch` is dead code);
Solar Storm then scans the roster for the first Engineer and, if one
exists, adds 10 energy and stops. -/
def execEvent (ev : EventT) (res : Resource) (cs : List Colonist) : Resource :=
  let r1 := resAdd res ev.resourceEffect
  match ev.kind with
  | .solarStorm =>
    match cs.find? (fun c => c.specialization == "Engineer") with
    | some _ => { r1 with energy := r1.energy + 10 }
    | none => r1
  | _ => r1

/-- The `GamePhase` enum. -/
inductive GamePhase
  | setup
  | production
  | eventPhase
  | management
  | endPhase
deriving DecidableEq, Repr

/-- The `GameState` class. -/
structure GameState where
  currentPhase : GamePhase
  turn : Int
  colonistCount : Int
  gameRunning : Bool
deriving DecidableEq, Repr

/-- `GameState::nextPhase()`: the phase cycle; the turn counter increments
exactly on the Management → Production edge; on End the running flag is
cleared. -/
def GameState.nextPhase (g : GameState) : GameState :=
  match g.currentPhase with
  | .setup => { g with currentPhase := .production }
  | .production => { g with currentPhase := .eventPhase }
  | .eventPhase => { g with currentPhase := .management }
  | .management => { g with currentPhase := .production, turn := g.turn + 1 }
  | .endPhase => { g with gameRunning := false }

/-- `GameState::endGame()`. -/
def GameState.endGame (g : GameState) : GameState :=
  { g with currentPhase := .endPhase, gameRunning := false }

/-- The mutable state owned by `GameEngine`. -/
structure EngineState where
  gameState : GameState
  colonyResources : Resource
  buildings : List Building
  colonists : List Colonist
deriving DecidableEq, Repr

/-- The roster created by `initializeGame()`. -/
def initColonists : List Colonist :=
  [{ name := "Alex Chen", specialization := "Engineer",
     experience := 0, health := 100, assigned := false },
   { name := "Maria Santos", specialization := "Scientist",
     experience := 0, health := 100, assigned := false },
   { name := "James Wilson", specialization := "Farmer",
     experience := 0, health := 100, assigned := false }]

/-- The engine state right after `initializeGame()`: default ledger, the
three colonists, a Solar Panel and a Greenhouse, phase Setup, turn 1. -/
def initState : EngineState :=
  { gameState := { currentPhase := .setup, turn := 1,
                   colonistCount := 3, gameRunning := true }
    colonyResources := defaultResource
    buildings := [mkSolarPanel, mkGreenhouse]
    colonists := initColonists }

/-- The building loop of `handleProductionPhase`: operational buildings
add their `produce()` output to the accumulator. -/
def buildingTotal (bs : List Building) (acc : Resource) : Resource :=
  bs.foldl (fun a b => if b.operational then resAdd a b.produce else a) acc

/-- The colonist loop of `handleProductionPhase`: for every colonist with
`!assigned && health > 50`, call `work()` and accumulate the output.  The
returned flag records a thrown `ColonistException` (which in the C++ code
aborts the rest of the phase; it is unreachable under the `health > 50`
guard), with colonists processed so far keeping their mutation. -/
def workLoop : List Colonist → Resource → List Colonist × Resource × Bool
  | [], acc => ([], acc, false)
  | c :: rest, acc =>
    if c.assigned = false ∧ c.health > 50 then
      match c.work with
      | .error _ => (c :: rest, acc, true)
      | .ok (c2, out) =>
        let r := workLoop rest (resAdd acc out)
        (c2 :: r.1, r.2.1, r.2.2)
    else
      let r := workLoop rest acc
      (c :: r.1, r.2.1, r.2.2)

/-- The per-turn consumption of `handleProductionPhase`: a
default-constructed `Resource` whose food/oxygen/energy entries are
overwritten; its materials entry keeps the constructor default 50. -/
def consumptionFor (nc nb : Nat) : Resource :=
  { defaultResource with food := (nc : Int) * 3,
                         oxygen := (nc : Int) * 2,
                         energy := (nb : Int) * 2 }

/-- `handleProductionPhase()`: building production, then colonist work,
summed into a default-constructed `totalProduction`; the aggregate is
added with `+=`; consumption is subtracted with `-=` (on failure the
ledger keeps the post-production value). -/
def handleProduction (s : EngineState) : EngineState :=
  let bTot := buildingTotal s.buildings defaultResource
  let w := workLoop s.colonists bTot
  if w.2.2 then { s with colonists := w.1 }
  else
    let res1 := resAdd s.colonyResources w.2.1
    let cons := consumptionFor s.colonists.length s.buildings.length
    { s with colonists := w.1, colonyResources := (resSubAssign res1 cons).1 }

/-- `handleEventPhase()` given the drawn roll: the first catalog event
with `roll <= probability` executes; otherwise nothing happens. -/
def handleEvent (roll : Int) (s : EngineState) : EngineState :=
  match selectEvent roll with
  | some ev => { s with colonyResources := execEvent ev s.colonyResources s.colonists }
  | none => s

/-- The menu choice consumed by `handleManagementPhase` (choice 5 and any
other value fall through to "continue"). -/
inductive MgmtCmd
  | build (choice : Int)
  | assign (choice : Nat)
  | restAll
  | save
  | continueTurn
deriving DecidableEq, Repr

/-- The structure selection inside `buildStructure()`. -/
def mkBuildingFor (choice : Int) : Option Building :=
  if choice = 1 then some mkSolarPanel
  else if choice = 2 then some mkGreenhouse
  else if choice = 3 then some mkOxygenGenerator
  else if choice = 4 then some mkMaterialFactory
  else none

/-- `buildStructure()`: an invalid choice returns; otherwise if
`canAfford(cost)` the cost is subtracted and the building appended (the
`-=` error branch, unreachable after `canAfford`, would abort with no
push). -/
def buildStructure (choice : Int) (s : EngineState) : EngineState :=
  match mkBuildingFor choice with
  | none => s
  | some nb =>
    if canAfford s.colonyResources nb.cost then
      match resSub s.colonyResources nb.cost with
      | .ok r => { s with colonyResources := r, buildings := s.buildings ++ [nb] }
      | .error _ => s
    else s

/-- `colonists[choice - 1]->setAssigned(true)` for an in-range index. -/
def setAssignedAt : List Colonist → Nat → List Colonist
  | [], _ => []
  | c :: rest, 0 => { c with assigned := true } :: rest
  | c :: rest, n + 1 => c :: setAssignedAt rest n

/-- `handleManagementPhase()` applied to one decoded choice. -/
def handleManagement (cmd : MgmtCmd) (s : EngineState) : EngineState :=
  match cmd with
  | .build choice => buildStructure choice s
  | .assign choice =>
    if 0 < choice ∧ choice ≤ s.colonists.length then
      { s with colonists := setAssignedAt s.colonists (choice - 1) }
    else s
  | .restAll => { s with colonists := s.colonists.map Colonist.restOp }
  | .save => s
  | .continueTurn => s

/-- `checkGameConditions()`: Win (`turn >= 10 && colonists.size() >= 3`)
is tested first, then the resource lose conditions, then the empty
roster; any hit calls `endGame()`. -/
def checkGameConditions (s : EngineState) : EngineState :=
  if s.gameState.turn ≥ 10 ∧ s.colonists.length ≥ 3 then
    { s with gameState := s.gameState.endGame }
  else if s.colonyResources.food ≤ 0 ∨ s.colonyResources.oxygen ≤ 0 then
    { s with gameState := s.gameState.endGame }
  else if s.colonists = [] then
    { s with gameState := s.gameState.endGame }
  else s

/-- The external inputs one iteration of `runGameLoop` may consume: the
Management menu choice and the Event phase roll. -/
structure LoopInput where
  mgmt : MgmtCmd
  roll : Int
deriving DecidableEq, Repr

/-- The phase dispatch of one `runGameLoop` iteration (Setup and End only
print). -/
def handlePhase (inp : LoopInput) (s : EngineState) : EngineState :=
  match s.gameState.currentPhase with
  | .setup => s
  | .production => handleProduction s
  | .eventPhase => handleEvent inp.roll s
  | .management => handleManagement inp.mgmt s
  | .endPhase => s

/-- One iteration of the `while (isGameRunning())` body: handle the
current phase, then `nextPhase()`, then `checkGameConditions()`. -/
def loopStep (inp : LoopInput) (s : EngineState) : EngineState :=
  let s1 := handlePhase inp s
  checkGameConditions { s1 with gameState := s1.gameState.nextPhase }

/-- The engine states reachable by `runGameLoop` from the initialized
game (iterations run only while the running flag is set). -/
inductive Reachable : EngineState → Prop
  | init : Reachable initState
  | step (inp : LoopInput) {s : EngineState} :
      Reachable s → s.gameState.gameRunning = true → Reachable (loopStep inp s)

/-- The loop iteration as the specification sentence for termination
describes it — the conditions evaluated once per cycle, strictly after
the Management phase and before advancing to Production — written only to
compare against `loopStep`. -/
def loopStepPerSpec (inp : LoopInput) (s : EngineState) : EngineState :=
  let s1 := handlePhase inp s
  let s2 :=
    if s1.gameState.currentPhase = GamePhase.management then checkGameConditions s1 else s1
  if s2.gameState.currentPhase = GamePhase.endPhase then s2
  else { s2 with gameState := s2.gameState.nextPhase }

/-- A mid-run Management state: turn 9, the founding roster and
buildings, a healthy default ledger. -/
def mgmtS9 : EngineState :=
  { gameState := { currentPhase := .management, turn := 9,
                   colonistCount := 3, gameRunning := true }
    colonyResources := defaultResource
    buildings := [mkSolarPanel, mkGreenhouse]
    colonists := initColonists }

/-- Roster identity: name and specialization of each entry, in order. -/
def rosterIds (cs : List Colonist) : List (String × String) :=
  cs.map (fun c => (c.name, c.specialization))

theorem workLoop_ids (cs : List Colonist) (acc : Resource) :
    rosterIds (workLoop cs acc).1 = rosterIds cs := by
  induction cs generalizing acc with
  | nil => rfl
  | cons c rest ih =>
    simp only [workLoop]
    split
    · cases hw : c.work with
      | error e => rfl
      | ok pr =>
        obtain ⟨c2, out⟩ := pr
        have hc2 : c2.name = c.name ∧ c2.specialization = c.specialization := by
          unfold Colonist.work at hw
          split at hw
          · exact absurd hw (by simp)
          · injection hw with h
            injection h with h1 h2
            subst h1
            exact ⟨rfl, rfl⟩
        simp only [rosterIds, List.map_cons] at *
        rw [hc2.1, hc2.2, ih]
    · simp only [rosterIds, List.map_cons] at *
      rw [ih]

theorem setAssignedAt_ids (cs : List Colonist) (n : Nat) :
    rosterIds (setAssignedAt cs n) = rosterIds cs := by
  induction cs generalizing n with
  | nil => rfl
  | cons c rest ih =>
    cases n with
    | zero => rfl
    | succ m => simp only [setAssignedAt, rosterIds, List.map_cons] at *; rw [ih]

theorem restOp_ids (cs : List Colonist) :
    rosterIds (cs.map Colonist.restOp) = rosterIds cs := by
  induction cs with
  | nil => rfl
  | cons c rest ih =>
    simp only [rosterIds, List.map_cons, Colonist.restOp] at *
    rw [ih]

theorem checkGame_colonists (s : EngineState) :
    (checkGameConditions s).colonists = s.colonists := by
  unfold checkGameConditions
  split_ifs <;> rfl

theorem handleProduction_colonists (s : EngineState) :
    (handleProduction s).colonists =
      (workLoop s.colonists (buildingTotal s.buildings defaultResource)).1 := by
  simp only [handleProduction]
  split <;> rfl

theorem handleEvent_colonists (roll : Int) (s : EngineState) :
    (handleEvent roll s).colonists = s.colonists := by
  simp only [handleEvent]
  split <;> rfl

theorem handleManagement_ids (cmd : MgmtCmd) (s : EngineState) :
    rosterIds (handleManagement cmd s).colonists = rosterIds s.colonists := by
  cases cmd with
  | build choice =>
    simp only [handleManagement, buildStructure]
    split
    · rfl
    · split
      · split <;> rfl
      · rfl
  | assign choice =>
    simp only [handleManagement]
    split
    · exact setAssignedAt_ids s.colonists _
    · rfl
  | restAll => exact restOp_ids s.colonists
  | save => rfl
  | continueTurn => rfl

theorem handleManagement_gameState (cmd : MgmtCmd) (s : EngineState) :
    (handleManagement cmd s).gameState = s.gameState := by
  cases cmd with
  | build choice =>
    simp only [handleManagement, buildStructure]
    split
    · rfl
    · split
      · split <;> rfl
      · rfl
  | assign choice =>
    simp only [handleManagement]
    split <;> rfl
  | restAll => rfl
  | save => rfl
  | continueTurn => rfl

theorem loopStep_ids (inp : LoopInput) (s : EngineState) :
    rosterIds (loopStep inp s).colonists = rosterIds s.colonists := by
  simp only [loopStep, checkGame_colonists]
  cases hp : s.gameState.currentPhase <;>
    simp [handlePhase, hp, handleProduction_colonists, handleEvent_colonists,
          handleManagement_ids, workLoop_ids]

/-- Claim C1: from the initial scenario (default ledger, three fresh
colonists, Solar Panel L1 and Greenhouse L1), one Production phase leaves
the ledger at Food 519, Energy 514, Materials 255, Oxygen 596 — not at
the Food 119 / Energy 114 / Materials 55 / Oxygen 96 the specification
computes — because every `Resource` temporary (building outputs, colonist
outputs, `totalProduction`, `consumption`) starts from the constructor
defaults {food 100, energy 100, materials 50, oxygen 100}. -/
theorem production_phase_eval :
    (handleProduction initState).colonyResources =
      { food := 519, energy := 514, materials := 255, oxygen := 596 }
    ∧ (handleProduction initState).colonyResources ≠
      { food := 119, energy := 114, materials := 55, oxygen := 96 } := by
  constructor
  · rfl
  · decide

/-- Claim C2: `produce()` of a non-operational building returns the
constructor-default `Resource()` ({100, 100, 50, 100}), not the zero
delta, and an operational building's output carries the defaults on every
kind other than its own (its own kind does get base × level). -/
theorem produce_flag_eval :
    ({ mkSolarPanel with operational := false } : Building).produce = defaultResource
    ∧ defaultResource ≠ zeroResource
    ∧ mkSolarPanel.produce = { defaultResource with energy := 15 }
    ∧ mkSolarPanel.produce.food = 100
    ∧ mkGreenhouse.produce = { defaultResource with food := 20 }
    ∧ mkGreenhouse.produce.materials = 50 := by
  refine ⟨rfl, by decide, rfl, rfl, rfl, rfl⟩

/-- Claim C3 counterexample: at a healthy Management state of turn 9
(food and oxygen positive, roster non-empty, so no lose condition holds,
and turn < 10, so a check taken after Management but before the phase
advance would not fire), the loop iteration of the code ends the game:
`checkGameConditions` runs after `nextPhase()` and sees turn 10.  The
machine written from the claim's wording keeps running. -/
theorem termination_timing_cex :
    mgmtS9.gameState.turn = 9
    ∧ mgmtS9.gameState.currentPhase = GamePhase.management
    ∧ 0 < mgmtS9.colonyResources.food
    ∧ 0 < mgmtS9.colonyResources.oxygen
    ∧ mgmtS9.colonists ≠ []
    ∧ (loopStep ⟨MgmtCmd.continueTurn, 100⟩ mgmtS9).gameState.gameRunning = false
    ∧ (loopStep ⟨MgmtCmd.continueTurn, 100⟩ mgmtS9).gameState.currentPhase = GamePhase.endPhase
    ∧ (loopStepPerSpec ⟨MgmtCmd.continueTurn, 100⟩ mgmtS9).gameState.gameRunning = true := by
  decide

/-- Claim C3 (amended): the loop evaluates the termination conditions
after every phase handler and after the phase advance; in particular the
evaluation that follows a Management step sees the incremented turn: the
game ends there exactly when turn + 1 ≥ 10 with at least 3 colonists, or
food ≤ 0, or oxygen ≤ 0, or the roster is empty (Win tested first). -/
theorem termination_eval_after_advance (inp : LoopInput) (s : EngineState)
    (hp : s.gameState.currentPhase = GamePhase.management) :
    ((loopStep inp s).gameState.currentPhase = GamePhase.endPhase ↔
      (s.gameState.turn + 1 ≥ 10 ∧ (handleManagement inp.mgmt s).colonists.length ≥ 3)
      ∨ (handleManagement inp.mgmt s).colonyResources.food ≤ 0
      ∨ (handleManagement inp.mgmt s).colonyResources.oxygen ≤ 0
      ∨ (handleManagement inp.mgmt s).colonists = []) := by
  have hg := handleManagement_gameState inp.mgmt s
  simp only [loopStep, handlePhase, hp]
  rw [hg]
  simp only [GameState.nextPhase, hp]
  unfold checkGameConditions GameState.endGame
  split_ifs with h1 h2 h3 <;> (simp_all; try tauto)

/-- Witness for the amended C3 theorem at the concrete turn-9 Management
state with a no-op menu choice. -/
theorem termination_eval_after_advance_witness :
    ((loopStep ⟨MgmtCmd.continueTurn, 100⟩ mgmtS9).gameState.currentPhase = GamePhase.endPhase ↔
      (mgmtS9.gameState.turn + 1 ≥ 10
        ∧ (handleManagement MgmtCmd.continueTurn mgmtS9).colonists.length ≥ 3)
      ∨ (handleManagement MgmtCmd.continueTurn mgmtS9).colonyResources.food ≤ 0
      ∨ (handleManagement MgmtCmd.continueTurn mgmtS9).colonyResources.oxygen ≤ 0
      ∨ (handleManagement MgmtCmd.continueTurn mgmtS9).colonists = []) :=
  termination_eval_after_advance ⟨MgmtCmd.continueTurn, 100⟩ mgmtS9 rfl

/-- Claim C6: for a roll in [1, 100] the Event phase picks exactly the
first catalog entry whose trigger weight is ≥ the roll — Solar Storm for
rolls ≤ 15, Trade Ship for rolls 16–25, nothing above 25 (so Meteor
Shower, weight 10, is always shadowed by Solar Storm) — and roll 15
selects Solar Storm although Trade Ship's weight 25 also qualifies. -/
theorem event_first_match (r : Int) (h1 : 1 ≤ r) (h2 : r ≤ 100) :
    selectEvent r =
      (if r ≤ 15 then some solarStormE else if r ≤ 25 then some tradeShipE else none)
    ∧ selectEvent 15 = some solarStormE
    ∧ (15 : Int) ≤ tradeShipE.probability
    ∧ meteorShowerE.probability = 10 := by
  refine ⟨?_, by decide, by decide, rfl⟩
  by_cases ha : r ≤ (15 : Int)
  · simp [selectEvent, eventCatalog, List.find?, solarStormE, ha]
  · by_cases hb : r ≤ (25 : Int)
    · simp [selectEvent, eventCatalog, List.find?, solarStormE, tradeShipE, ha, hb]
    · have hc : ¬r ≤ (10 : Int) := by omega
      simp [selectEvent, eventCatalog, List.find?, solarStormE, tradeShipE,
            meteorShowerE, ha, hb, hc]

/-- Witness for C6 at roll 15. -/
theorem event_first_match_witness :
    (1 : Int) ≤ 15 ∧ (15 : Int) ≤ 100 ∧
    (selectEvent 15 =
      (if (15 : Int) ≤ 15 then some solarStormE
       else if (15 : Int) ≤ 25 then some tradeShipE else none)
    ∧ selectEvent 15 = some solarStormE
    ∧ (15 : Int) ≤ tradeShipE.probability
    ∧ meteorShowerE.probability = 10) :=
  ⟨by decide, by decide, event_first_match 15 (by decide) (by decide)⟩

/-- Claim C7: executing Solar Storm moves the ledger's energy by exactly
−20 when some Engineer is in the roster (−30 base, one +10 repair bonus
no matter how many Engineers) and by −30 otherwise; the application is
total — it cannot fail, and a negative resulting energy is tolerated, as
the concrete no-Engineer run from energy 0 shows. -/
theorem solarStorm_energy_delta (res : Resource) (cs : List Colonist) :
    (execEvent solarStormE res cs).energy =
      res.energy + (if cs.any (fun c => c.specialization == "Engineer") then -20 else -30)
    ∧ (execEvent solarStormE { defaultResource with energy := 0 } []).energy = -30 := by
  refine ⟨?_, by decide⟩
  simp only [execEvent]
  cases hf : cs.find? (fun c => c.specialization == "Engineer") with
  | none =>
    have hany : cs.any (fun c => c.specialization == "Engineer") = false := by
      rw [List.any_eq_false]
      intro x hx
      exact List.find?_eq_none.mp hf x hx
    simp [hany, solarStormE, resAdd]
  | some c0 =>
    have hp := List.find?_some (p := fun c : Colonist => c.specialization == "Engineer") hf
    have hmem : c0 ∈ cs := List.mem_of_find?_eq_some hf
    have hany : cs.any (fun c => c.specialization == "Engineer") = true := by
      rw [List.any_eq_true]
      exact ⟨c0, hmem, hp⟩
    simp [hany, solarStormE, resAdd]
    omega

/-- Claim C8: the per-turn consumption delta holds food 3 × colonists,
oxygen 2 × colonists, energy 2 × buildings — and materials 50, inherited
from the `Resource()` default constructor — so every successful
consumption subtraction debits 50 materials from the ledger. -/
theorem consumption_materials_debit (nc nb : Nat) (led : Resource) :
    (consumptionFor nc nb).materials = 50
    ∧ (consumptionFor nc nb).food = (nc : Int) * 3
    ∧ (consumptionFor nc nb).oxygen = (nc : Int) * 2
    ∧ (consumptionFor nc nb).energy = (nb : Int) * 2
    ∧ ∀ r, resSub led (consumptionFor nc nb) = Except.ok r →
        r.materials = led.materials - 50 := by
  refine ⟨rfl, rfl, rfl, rfl, ?_⟩
  intro r h
  unfold resSub at h
  split_ifs at h
  all_goals injection h with h2
  rw [← h2]
  rfl

/-- Witness for C8 with 3 colonists, 2 buildings and the default ledger. -/
theorem consumption_materials_debit_witness :
    (consumptionFor 3 2).materials = 50
    ∧ ({ food := 91, energy := 96, materials := 0, oxygen := 94 } : Resource).materials
        = defaultResource.materials - 50 :=
  ⟨(consumption_materials_debit 3 2 defaultResource).1,
   (consumption_materials_debit 3 2 defaultResource).2.2.2.2
     { food := 91, energy := 96, materials := 0, oxygen := 94 } rfl⟩

/-- Claim C9: each event's stored `resourceEffect` keeps the constructor
defaults {food 100, energy 100, materials 50, oxygen 100} on every kind
its constructor does not overwrite; in particular executing Trade Ship
adds food +15, energy +100, materials +20 and oxygen +100. -/
theorem event_effect_defaults :
    solarStormE.resourceEffect =
      { food := 100, energy := -30, materials := 50, oxygen := 100 }
    ∧ tradeShipE.resourceEffect =
      { food := 15, energy := 100, materials := 20, oxygen := 100 }
    ∧ meteorShowerE.resourceEffect =
      { food := 100, energy := 100, materials := 30, oxygen := -10 }
    ∧ ∀ res cs, execEvent tradeShipE res cs =
        { food := res.food + 15, energy := res.energy + 100,
          materials := res.materials + 20, oxygen := res.oxygen + 100 } := by
  refine ⟨rfl, rfl, rfl, fun res cs => ?_⟩
  simp [execEvent, tradeShipE, resAdd, defaultResource]

/-- Claim C10: every state the game loop reaches keeps exactly the three
founding colonists (same names and specializations, in order) — no loop
operation adds or removes a roster entry — so the roster length is
invariantly 3, the win conjunct `colonists.size() >= 3` always holds and
the empty-roster lose condition is never taken. -/
theorem roster_invariant (s : EngineState) (h : Reachable s) :
    rosterIds s.colonists =
      [("Alex Chen", "Engineer"), ("Maria Santos", "Scientist"), ("James Wilson", "Farmer")]
    ∧ s.colonists.length = 3
    ∧ s.colonists ≠ [] := by
  have hids : rosterIds s.colonists =
      [("Alex Chen", "Engineer"), ("Maria Santos", "Scientist"),
       ("James Wilson", "Farmer")] := by
    induction h with
    | init => rfl
    | step inp hr hg ih => rw [loopStep_ids]; exact ih
  refine ⟨hids, ?_, ?_⟩
  · have hlen := congrArg List.length hids
    simpa [rosterIds] using hlen
  · intro hnil
    rw [hnil] at hids
    simp [rosterIds] at hids

/-- Witness for C10 at the initialized game state. -/
theorem roster_invariant_witness :
    rosterIds initState.colonists =
      [("Alex Chen", "Engineer"), ("Maria Santos", "Scientist"), ("James Wilson", "Farmer")]
    ∧ initState.colonists.length = 3
    ∧ initState.colonists ≠ [] :=
  roster_invariant initState Reachable.init
